import Mathlib

/- Verification development for the loyalty/rewards backend
   (gaming-club billing platform: periodic loot-box openings, prize
   inventory, redemption).  The operative service iteration is shallowly
   embedded from src/backend/src/index.ts (the final iteration of the
   service, lines 1018-1517) together with the relational schema of
   src/backend/src/database.ts.  External collaborators (the SmartShell
   GraphQL billing API, the SQLite store's transaction mechanism, the
   Intl date formatter) are modelled at their interface: upstream calls
   become explicit `Except` values, the ambient Riga-timezone clock
   becomes an explicit argument, and BEGIN/COMMIT/ROLLBACK become a
   connection state with a transaction buffer. -/

namespace CyberHub

/-- Whether `pat` occurs as a contiguous run inside the character list. -/
def listHasInfix (pat : List Char) : List Char → Bool
  | [] => pat.isEmpty
  | c :: rest => pat.isPrefixOf (c :: rest) || listHasInfix pat rest

/-- JS `s.includes(sub)`: substring containment. -/
def strIncludes (s sub : String) : Bool := listHasInfix sub.data s.data

/-- JS `s.startsWith(p)`. -/
def strStartsWith (s p : String) : Bool := p.data.isPrefixOf s.data

/-- JS `s.toLowerCase()`, modelled as the character-wise lowering of the
character list (identical to String.toLower, written structurally). -/
def strToLower (s : String) : String := String.mk (s.data.map Char.toLower)

/-- The Riga-timezone calendar parts (year, month, day digit strings) that
`rigaDateParts` (index.ts lines 1038-1049) extracts with
Intl.DateTimeFormat for "Europe/Riga"; the ambient clock is out of scope
and is passed explicitly. -/
structure RigaParts where
  y : String
  m : String
  d : String
deriving DecidableEq, Repr

/-- index.ts `getRigaDayKey` (line 1050): the template string `y-m-d`. -/
def getRigaDayKey (p : RigaParts) : String := p.y ++ "-" ++ p.m ++ "-" ++ p.d

/-- index.ts `getRigaMonthKey` (line 1051): the template string `y-m`. -/
def getRigaMonthKey (p : RigaParts) : String := p.y ++ "-" ++ p.m

/-- index.ts `normalizeDatePart` (lines 1053-1061): empty input gives null;
otherwise trim, then match either `^(\d{4})-(\d{2})-(\d{2})` (kept as
`YYYY-MM-DD`) or `^(\d{2})\.(\d{2})\.(\d{4})` (rearranged to
`YYYY-MM-DD`); anything else gives null. -/
def normalizeDatePart (createdAt : String) : Option String :=
  if createdAt = "" then none
  else
    match (createdAt.trim).data with
    | a0 :: a1 :: a2 :: a3 :: a4 :: a5 :: a6 :: a7 :: a8 :: a9 :: _ =>
      if a0.isDigit && a1.isDigit && a2.isDigit && a3.isDigit && a4 == '-'
          && a5.isDigit && a6.isDigit && a7 == '-' && a8.isDigit && a9.isDigit then
        some (String.mk [a0, a1, a2, a3, '-', a5, a6, '-', a8, a9])
      else if a0.isDigit && a1.isDigit && a2 == '.' && a3.isDigit && a4.isDigit
          && a5 == '.' && a6.isDigit && a7.isDigit && a8.isDigit && a9.isDigit then
        some (String.mk [a6, a7, a8, a9, '-', a3, a4, '-', a0, a1])
      else none
    | _ => none

/-- One record of `getPaymentsByClientId(...).data` as consumed by
`calculateProgressSafe` (index.ts line 1143): created_at, title, sum,
amount, is_refunded, and the list of `items { type }` tags.  Monetary
JS numbers are modelled as rationals; absent/null numeric fields as
`none`. -/
structure Payment where
  created_at : String
  title : String
  sum : Option ℚ
  amount : Option ℚ
  is_refunded : Bool
  itemTypes : List String
deriving DecidableEq, Repr

/-- JS `Number(x) || fallback`: an absent value (NaN) or 0 falls through. -/
def jsNumOr (x : Option ℚ) (fallback : ℚ) : ℚ :=
  match x with
  | some v => if v = 0 then fallback else v
  | none => fallback

/-- index.ts line 1153: `Number(p.sum) || Number(p.amount) || 0`. -/
def paymentVal (p : Payment) : ℚ := jsNumOr p.sum (jsNumOr p.amount 0)

/-- index.ts line 1155-1156: lower-cased title contains one of the
deposit-indicating substrings, or some item tag equals "DEPOSIT".
(JS toLowerCase is modelled by strToLower.) -/
def paymentIsDeposit (p : Payment) : Bool :=
  let title := strToLower p.title
  strIncludes title "пополнение" || strIncludes title "deposit" ||
    strIncludes title "top-up" || p.itemTypes.any (fun t => t == "DEPOSIT")

/-- JS `Math.round` on the values reached here: floor of q + 1/2. -/
def jsRound (q : ℚ) : ℤ := ⌊q + 1/2⌋

/-- index.ts line 1163: `Math.round(x * 100) / 100`. -/
def round2 (q : ℚ) : ℚ := ((jsRound (q * 100) : ℤ) : ℚ) / 100

/-- The `{daily, monthly}` result of the progress calculator. -/
structure Progress where
  daily : ℚ
  monthly : ℚ
deriving DecidableEq, Repr

/-- The ways the upstream billing call can fail (network error, timeout,
HTTP error status, GraphQL error payload, unparsable body) — all of them
surface as a thrown exception inside the `try` of
`calculateProgressSafe`. -/
inductive UpstreamFailure where
  | network
  | timeout
  | httpError (code : Nat)
  | gqlError (msg : String)
  | invalidJson
deriving DecidableEq, Repr

/-- The body of the `for (const p of items)` loop of
`calculateProgressSafe` (index.ts lines 1151-1162), acting on the
`(daily, monthly)` accumulator: skip refunded payments, skip
non-positive values, skip non-deposits, skip unparsable dates; add the
value to the daily bucket when the normalized date equals today's key
and to the monthly bucket when it starts with the month key. -/
def progressStep (todayKey monthKey : String) (acc : ℚ × ℚ) (p : Payment) : ℚ × ℚ :=
  if p.is_refunded then acc
  else
    let val := paymentVal p
    if val ≤ 0 then acc
    else if paymentIsDeposit p then
      match normalizeDatePart p.created_at with
      | none => acc
      | some dateStr =>
        (if dateStr == todayKey then acc.1 + val else acc.1,
         if strStartsWith dateStr monthKey then acc.2 + val else acc.2)
    else acc

/-- index.ts `calculateProgressSafe` (lines 1139-1167).  The upstream
interaction (service token + getPaymentsByClientId) is abstracted as an
`Except UpstreamFailure (List Payment)`: the catch-all returns zero
totals on any failure; on success the loop buckets the payments by the
Riga day and month keys and rounds both totals to 2 decimals. -/
def calculateProgressSafe (upstream : Except UpstreamFailure (List Payment))
    (parts : RigaParts) : Progress :=
  match upstream with
  | .error _ => ⟨0, 0⟩
  | .ok items =>
    let todayKey := getRigaDayKey parts
    let monthKey := getRigaMonthKey parts
    let totals := items.foldl (progressStep todayKey monthKey) (0, 0)
    ⟨round2 totals.1, round2 totals.2⟩

lemma list_isPrefixOf_append (l₁ l₂ : List Char) : l₁.isPrefixOf (l₁ ++ l₂) = true := by
  induction l₁ with
  | nil => simp [List.isPrefixOf]
  | cons a as ih => simp [List.isPrefixOf, ih]

lemma strStartsWith_append (s t : String) : strStartsWith (s ++ t) s = true := by
  have hdata : (s ++ t).data = s.data ++ t.data := by
    cases s; cases t; rfl
  simp [strStartsWith, hdata, list_isPrefixOf_append]

lemma dayKey_startsWith_monthKey (p : RigaParts) :
    strStartsWith (getRigaDayKey p) (getRigaMonthKey p) = true := by
  have h : getRigaDayKey p = getRigaMonthKey p ++ ("-" ++ p.d) := by
    simp [getRigaDayKey, getRigaMonthKey, String.append_assoc]
  rw [h]
  exact strStartsWith_append _ _

lemma progressStep_mono (tk mk : String) (hpre : strStartsWith tk mk = true)
    (acc : ℚ × ℚ) (p : Payment) (h : acc.1 ≤ acc.2) :
    (progressStep tk mk acc p).1 ≤ (progressStep tk mk acc p).2 := by
  by_cases hr : p.is_refunded
  · simp [progressStep, hr, h]
  · by_cases hv : paymentVal p ≤ 0
    · simp [progressStep, hr, hv, h]
    · have hval : 0 < paymentVal p := lt_of_not_le hv
      by_cases hd : paymentIsDeposit p
      · cases hnorm : normalizeDatePart p.created_at with
        | none => simp [progressStep, hr, hv, hd, hnorm, h]
        | some dateStr =>
          by_cases heq : (dateStr == tk) = true
          · have hds : dateStr = tk := by simpa using heq
            have hsw : strStartsWith dateStr mk = true := by rw [hds]; exact hpre
            simp only [progressStep, hr, hv, hd, hnorm, heq, hsw]
            simp only [Bool.false_eq_true, if_false, if_true]
            linarith
          · by_cases hsw : strStartsWith dateStr mk = true
            · simp only [progressStep, hr, hv, hd, hnorm, heq, hsw]
              simp only [Bool.false_eq_true, if_false, if_true]
              linarith
            · simp [progressStep, hr, hv, hd, hnorm, heq, hsw, h]
      · simp [progressStep, hr, hv, hd, h]

lemma progressFold_mono (tk mk : String) (hpre : strStartsWith tk mk = true)
    (l : List Payment) :
    ∀ acc : ℚ × ℚ, acc.1 ≤ acc.2 →
      (l.foldl (progressStep tk mk) acc).1 ≤ (l.foldl (progressStep tk mk) acc).2 := by
  induction l with
  | nil => intro acc h; simpa using h
  | cons p rest ih =>
      intro acc h
      simpa using ih _ (progressStep_mono tk mk hpre acc p h)

lemma round2_mono {a b : ℚ} (h : a ≤ b) : round2 a ≤ round2 b := by
  unfold round2 jsRound
  have h2 : (⌊a * 100 + 1/2⌋ : ℤ) ≤ ⌊b * 100 + 1/2⌋ :=
    Int.floor_le_floor (by linarith)
  have h3 : ((⌊a * 100 + 1/2⌋ : ℤ) : ℚ) ≤ ((⌊b * 100 + 1/2⌋ : ℤ) : ℚ) := by
    exact_mod_cast h2
  linarith

/-- C6: the progress calculator fails closed — for every failing upstream
billing response (network error, timeout, HTTP error, GraphQL error,
invalid body) and every clock instant it returns zero daily and monthly
totals instead of raising. -/
theorem calculateProgressSafe_fail_closed (f : UpstreamFailure) (parts : RigaParts) :
    calculateProgressSafe (.error f) parts = ⟨0, 0⟩ := rfl

/-- C10: for every upstream payment list (or failure) and every fixed clock
instant, the progress calculator's daily total is at most its monthly
total: a payment bucketed into the daily sum has its normalized date equal
to the Riga day key, which always starts with the Riga month key. -/
theorem calculateProgressSafe_daily_le_monthly
    (upstream : Except UpstreamFailure (List Payment)) (parts : RigaParts) :
    (calculateProgressSafe upstream parts).daily ≤ (calculateProgressSafe upstream parts).monthly := by
  cases upstream with
  | error e => simp [calculateProgressSafe]
  | ok items =>
    have hpre := dayKey_startsWith_monthKey parts
    have hfold := progressFold_mono _ _ hpre items (0, 0) (le_refl 0)
    simpa [calculateProgressSafe] using round2_mono hfold

/-- A row of the `sessions` table (database.ts lines 13-21). -/
structure SessionRow where
  token : String
  user_uuid : String
  nickname : String
  created_at : Int
  last_seen_at : Int
  expires_at : Int
  client_access_token : String
deriving DecidableEq, Repr

/-- A row of the `items` table (database.ts lines 22-32). -/
structure ItemRow where
  id : String
  type : String
  title : String
  image_url : String
  price_eur : ℚ
  sell_price_eur : ℚ
  rarity : String
  stock : Int
  is_active : Bool
deriving DecidableEq, Repr

/-- A row of the `cases` table (database.ts lines 33-40). -/
structure CaseRow where
  id : String
  title : String
  type : String
  threshold_eur : ℚ
  image_url : String
  is_active : Bool
deriving DecidableEq, Repr

/-- A row of the `case_items` link table (database.ts lines 41-49). -/
structure CaseItemRow where
  id : Nat
  case_id : String
  item_id : String
  weight : ℚ
  rarity : String
deriving DecidableEq, Repr

/-- A row of the `case_claims` table (database.ts lines 50-56).  The DDL
declares only the AUTOINCREMENT surrogate primary key: there is no
UNIQUE constraint or unique index on (user_uuid, case_id, period_key). -/
structure ClaimRow where
  user_uuid : String
  case_id : String
  period_key : String
  claimed_at : Int
deriving DecidableEq, Repr

/-- A row of the `spins` history table (database.ts lines 57-67). -/
structure SpinRow where
  user_uuid : String
  case_id : String
  period_key : String
  prize_title : String
  prize_amount_eur : ℚ
  rarity : String
  image_url : String
  created_at : Int
deriving DecidableEq, Repr

/-- A row of the `inventory` table (database.ts lines 68-81). -/
structure InvRow where
  id : Nat
  user_uuid : String
  item_id : String
  title : String
  type : String
  image_url : String
  amount_eur : ℚ
  sell_price_eur : ℚ
  rarity : String
  status : String
  created_at : Int
  updated_at : Int
deriving DecidableEq, Repr

/-- A row of the `user_settings` table (trade link, level, xp). -/
structure SettingsRow where
  user_uuid : String
  trade_link : Option String
  level : Int
  xp : ℚ
deriving DecidableEq, Repr

/-- A row of the `requests` redemption table. -/
structure RequestRow where
  id : String
  user_uuid : String
  inventory_id : Nat
  item_title : String
  type : String
  status : String
  created_at : Int
deriving DecidableEq, Repr

/-- The relational store: one list of rows per table, in insertion order
(SQLite rowid order, which is the iteration order of unordered SELECTs). -/
structure DBState where
  sessions : List SessionRow
  items : List ItemRow
  cases : List CaseRow
  case_items : List CaseItemRow
  case_claims : List ClaimRow
  spins : List SpinRow
  inventory : List InvRow
  user_settings : List SettingsRow
  requests : List RequestRow
deriving DecidableEq, Repr

/-- A database connection with an optional open transaction buffer: row
changes go to the buffer between BEGIN and COMMIT and are discarded by
ROLLBACK (the store's documented transaction semantics). -/
structure Conn where
  committed : DBState
  tx : Option DBState
deriving DecidableEq, Repr

/-- `BEGIN TRANSACTION`: snapshot the committed state into the buffer. -/
def dbBegin (c : Conn) : Conn := { c with tx := some c.committed }

/-- Run a row-level write: inside a transaction it updates the buffer,
otherwise it autocommits. -/
def dbExec (c : Conn) (op : DBState → DBState) : Conn :=
  match c.tx with
  | some buf => { c with tx := some (op buf) }
  | none => { c with committed := op c.committed }

/-- `COMMIT`: publish the buffer. -/
def dbCommit (c : Conn) : Conn :=
  match c.tx with
  | some buf => { committed := buf, tx := none }
  | none => c

/-- `ROLLBACK`: discard the buffer. -/
def dbRollback (c : Conn) : Conn := { c with tx := none }

/-- The `INSERT INTO case_claims` write (index.ts line 1425).  Because the
case_claims DDL carries no uniqueness constraint, the insert
unconditionally appends — it can never fail a uniqueness check, even for
a duplicate (user_uuid, case_id, period_key) triple. -/
def insClaim (r : ClaimRow) (st : DBState) : DBState :=
  { st with case_claims := st.case_claims ++ [r] }

/-- The `INSERT INTO spins` write (index.ts line 1426). -/
def insSpin (r : SpinRow) (st : DBState) : DBState :=
  { st with spins := st.spins ++ [r] }

/-- The `INSERT INTO inventory` write (index.ts line 1427). -/
def insInv (r : InvRow) (st : DBState) : DBState :=
  { st with inventory := st.inventory ++ [r] }

/-- One row of the case-contents join (index.ts line 1419):
`SELECT ci.*, i.stock, i.title, i.price_eur, i.sell_price_eur, i.type,
i.image_url FROM case_items ci JOIN items i ON ci.item_id = i.id`.
The `type` column of the joined object comes from `items`, the `rarity`
from `case_items`. -/
structure CaseItemJoined where
  item_id : String
  weight : ℚ
  rarity : String
  stock : Int
  title : String
  price_eur : ℚ
  sell_price_eur : ℚ
  itemType : String
  image_url : String
deriving DecidableEq, Repr

/-- The case-contents join restricted to one case (inner join: links whose
item is missing are dropped). -/
def joinCaseItems (st : DBState) (caseId : String) : List CaseItemJoined :=
  (st.case_items.filter (fun ci => ci.case_id == caseId)).filterMap
    (fun ci =>
      (st.items.find? (fun it => it.id == ci.item_id)).map
        (fun it =>
          { item_id := ci.item_id, weight := ci.weight, rarity := ci.rarity,
            stock := it.stock, title := it.title, price_eur := it.price_eur,
            sell_price_eur := it.sell_price_eur, itemType := it.type,
            image_url := it.image_url }))

/-- index.ts line 1420: `caseItems.reduce((acc, i) => acc + i.weight, 0)`. -/
def sumWeights (items : List CaseItemJoined) : ℚ :=
  items.foldl (fun acc i => acc + i.weight) 0

/-- The stateful `caseItems.find(i => (rnd -= i.weight) <= 0)` walk of
index.ts line 1421: subtract each weight from the running value and stop
at the first item where it drops to 0 or below. -/
def findSel (rnd : ℚ) : List CaseItemJoined → Option CaseItemJoined
  | [] => none
  | i :: rest =>
    if rnd - i.weight ≤ 0 then some i else findSel (rnd - i.weight) rest

/-- index.ts line 1421: `caseItems.find(...) || caseItems[0]` — when the
walk selects nothing the JS falls back to `caseItems[0]`, the FIRST
element (undefined when the list is empty). -/
def selectItem (items : List CaseItemJoined) (rnd : ℚ) : Option CaseItemJoined :=
  match findSel rnd items with
  | some i => some i
  | none => items.head?

/-- index.ts line 1409: `(caseMeta.type || "").toLowerCase()` then
`type.includes("daily")`. -/
def caseIsDaily (meta : CaseRow) : Bool :=
  strIncludes (strToLower meta.type) "daily"

/-- index.ts line 1410: the period key is the Riga day key for daily-type
cases and the Riga month key otherwise. -/
def periodKeyFor (meta : CaseRow) (parts : RigaParts) : String :=
  if caseIsDaily meta then getRigaDayKey parts else getRigaMonthKey parts

/-- The advisory claim check (index.ts line 1411): `SELECT id FROM
case_claims WHERE user_uuid=? AND case_id=? AND period_key=?`. -/
def hasClaim (st : DBState) (u c pk : String) : Bool :=
  st.case_claims.any (fun r => r.user_uuid == u && r.case_id == c && r.period_key == pk)

/-- The response of POST /api/cases/open: the four error responses
(404 case not found; 400 already opened; 403 not enough deposit; the
generic catch-all 500 built from the thrown message) and the 200 prize
payload. -/
inductive OpenResp where
  | caseNotFound
  | alreadyOpened
  | notEnoughDeposit
  | internalError
  | success (selected : CaseItemJoined)
deriving DecidableEq, Repr

/-- The HTTP status attached to each open-case response. -/
def OpenResp.status : OpenResp → Nat
  | .caseNotFound => 404
  | .alreadyOpened => 400
  | .notEnoughDeposit => 403
  | .internalError => 500
  | .success _ => 200

/-- The per-request environment of an open-case call: the authenticated
user, the request body, the Riga clock parts, the upstream billing
result consumed by the progress recomputation, the `Math.random()` draw
`r ∈ [0,1)`, the wall-clock `Date.now()`, and a failure oracle saying
which of the three grant inserts (0 = case_claims, 1 = spins,
2 = inventory) throws, if any. -/
structure OpenEnv where
  user_uuid : String
  caseId : String
  parts : RigaParts
  upstream : Except UpstreamFailure (List Payment)
  r : ℚ
  now : Int
  failAt : Option (Fin 3)
deriving Repr

/-- The claim row inserted by a successful open (index.ts line 1425). -/
def mkClaimRow (env : OpenEnv) (periodKey : String) : ClaimRow :=
  { user_uuid := env.user_uuid, case_id := env.caseId,
    period_key := periodKey, claimed_at := env.now }

/-- The spin row inserted by a successful open (index.ts line 1426); note
the source stores `getRigaDayKey()` as the spin's period_key for monthly
cases too. -/
def mkSpinRow (env : OpenEnv) (selected : CaseItemJoined) : SpinRow :=
  { user_uuid := env.user_uuid, case_id := env.caseId,
    period_key := getRigaDayKey env.parts, prize_title := selected.title,
    prize_amount_eur := selected.price_eur, rarity := selected.rarity,
    image_url := selected.image_url, created_at := env.now }

/-- The inventory row inserted by a successful open (index.ts line 1427),
created in the 'available' state; the AUTOINCREMENT id is the next rowid. -/
def mkInvRow (st : DBState) (env : OpenEnv) (selected : CaseItemJoined) : InvRow :=
  { id := st.inventory.length + 1, user_uuid := env.user_uuid,
    item_id := selected.item_id, title := selected.title,
    type := selected.itemType, image_url := selected.image_url,
    amount_eur := selected.price_eur, sell_price_eur := selected.sell_price_eur,
    rarity := selected.rarity, status := "available",
    created_at := env.now, updated_at := env.now }

/-- The grant phase of the open-case handler (index.ts lines 1424-1428 and
the catch at line 1434): BEGIN, insert the claim row, the spin row and
the inventory row, COMMIT; an insert that throws jumps to the catch,
which ROLLBACKs the transaction and answers the generic 500. -/
def grantPhase (st : DBState) (c : ClaimRow) (sp : SpinRow) (iv : InvRow)
    (failAt : Option (Fin 3)) (selected : CaseItemJoined) : OpenResp × DBState :=
  let conn0 := dbBegin { committed := st, tx := none }
  if failAt == some 0 then
    (.internalError, (dbRollback conn0).committed)
  else
    let conn1 := dbExec conn0 (insClaim c)
    if failAt == some 1 then
      (.internalError, (dbRollback conn1).committed)
    else
      let conn2 := dbExec conn1 (insSpin sp)
      if failAt == some 2 then
        (.internalError, (dbRollback conn2).committed)
      else
        (.success selected, (dbCommit (dbExec conn2 (insInv iv))).committed)

/-- POST /api/cases/open (index.ts lines 1401-1435), for an authenticated
user: look up the case, compute the period key, advisory-check the
claims, recompute progress and compare with the threshold, join the case
contents, draw `rnd = r * totalWeight`, walk the weights, and run the
grant transaction.  An empty contents list makes the JS dereference
`undefined` after the claim insert, so the catch rolls the transaction
back and answers 500 with no visible write. -/
def openCase (st : DBState) (env : OpenEnv) : OpenResp × DBState :=
  match st.cases.find? (fun c => c.id == env.caseId) with
  | none => (.caseNotFound, st)
  | some caseMeta =>
    let periodKey := periodKeyFor caseMeta env.parts
    if hasClaim st env.user_uuid env.caseId periodKey then
      (.alreadyOpened, st)
    else
      let progress := calculateProgressSafe env.upstream env.parts
      let currentProgress := if caseIsDaily caseMeta then progress.daily else progress.monthly
      if currentProgress < caseMeta.threshold_eur then
        (.notEnoughDeposit, st)
      else
        let caseItems := joinCaseItems st env.caseId
        let rnd := env.r * sumWeights caseItems
        match selectItem caseItems rnd with
        | none =>
          (.internalError,
            (dbRollback (dbExec (dbBegin { committed := st, tx := none })
              (insClaim (mkClaimRow env periodKey)))).committed)
        | some selected =>
          grantPhase st (mkClaimRow env periodKey) (mkSpinRow env selected)
            (mkInvRow st env selected) env.failAt selected

/-- The `UPDATE inventory SET status = ?, updated_at = ? WHERE id = ?`
write shared by the sell/claim/operator routes. -/
def updateInvStatus (st : DBState) (invId : Nat) (status : String) (now : Int) : DBState :=
  let upd := fun (r : InvRow) =>
    if r.id == invId then { r with status := status, updated_at := now } else r
  { st with inventory := st.inventory.map upd }

/-- The response of POST /api/inventory/sell. -/
inductive SellResp where
  | notAvailable
  | cannotSellMoney
  | sold (amount : ℚ)
deriving DecidableEq, Repr

/-- POST /api/inventory/sell (index.ts lines 1443-1452): find the user's
inventory row; 400 "Item not available" unless its status is
'available'; 400 "Money cannot be sold" for money-type items; otherwise
stub the balance credit, mark the row 'sold' and return the sell price. -/
def sellOp (st : DBState) (user : String) (invId : Nat) (now : Int) : SellResp × DBState :=
  match st.inventory.find? (fun r => r.id == invId && r.user_uuid == user) with
  | none => (.notAvailable, st)
  | some item =>
    if item.status ≠ "available" then (.notAvailable, st)
    else if item.type == "money" then (.cannotSellMoney, st)
    else (.sold item.sell_price_eur, updateInvStatus st invId "sold" now)

/-- The trade link the claim route sees: requireSession (index.ts lines
1176-1178) spreads the user_settings row into the session locals, so the
value is the trade_link column of the user's settings row, when any. -/
def tradeLinkOf (st : DBState) (user : String) : Option String :=
  (st.user_settings.find? (fun s => s.user_uuid == user)).bind (fun s => s.trade_link)

/-- JS falsiness of the trade link (`!trade_link`): absent row, NULL
column or empty string. -/
def tradeLinkFalsy (tl : Option String) : Bool :=
  match tl with
  | none => true
  | some s => s == ""

/-- The response of POST /api/inventory/claim. -/
inductive ClaimResp where
  | notAvailable
  | moneyCredited (amount : ℚ)
  | tradeLinkMissing
  | requestCreated (id : String)
deriving DecidableEq, Repr

/-- POST /api/inventory/claim (index.ts lines 1454-1477): find the user's
available inventory row; money prizes are credited at once and marked
'received'; a skin without a trade link on file rolls the transaction
back with TRADE_LINK_MISSING; anything else becomes 'processing' with a
pending redemption request `REQ-<random>` (the random suffix is the
explicit `reqNum` argument). -/
def claimOp (st : DBState) (user : String) (invId : Nat) (now : Int) (reqNum : Nat) :
    ClaimResp × DBState :=
  match st.inventory.find? (fun r => r.id == invId && r.user_uuid == user) with
  | none => (.notAvailable, st)
  | some item =>
    if item.status ≠ "available" then (.notAvailable, st)
    else if item.type == "money" then
      (.moneyCredited item.amount_eur, updateInvStatus st invId "received" now)
    else if item.type == "skin" && tradeLinkFalsy (tradeLinkOf st user) then
      (.tradeLinkMissing, st)
    else
      let requestId := "REQ-" ++ toString reqNum
      let st1 := updateInvStatus st invId "processing" now
      (.requestCreated requestId,
        { st1 with
            requests := st1.requests ++
              [{ id := requestId, user_uuid := user, inventory_id := invId,
                 item_title := item.title, type := item.type,
                 status := "pending", created_at := now }] })

/-- The result of the requireSession middleware: 401 without a token, 401
for an unknown token, or the authorized locals (the session row spread
together with the user's settings row). -/
inductive AuthResult where
  | noToken
  | invalidSession
  | authorized (session : SessionRow) (settings : Option SettingsRow)
deriving DecidableEq, Repr

/-- requireSession (index.ts lines 1169-1180): take the bearer token, look
the session row up by token, 401 when absent; then merge the
user_settings row into the request locals.  The row's expires_at column
and the current time `now` are never consulted. -/
def requireSession (st : DBState) (token : Option String) (now : Int) : AuthResult :=
  match token with
  | none => .noToken
  | some t =>
    match st.sessions.find? (fun s => s.token == t) with
    | none => .invalidSession
    | some s => .authorized s (st.user_settings.find? (fun u => u.user_uuid == s.user_uuid))

/-- The empty store (all tables empty), used to build concrete fixtures. -/
def emptyDB : DBState :=
  { sessions := [], items := [], cases := [], case_items := [], case_claims := [],
    spins := [], inventory := [], user_settings := [], requests := [] }

/-- C9: session expiry is never enforced at the public interface — whenever
the sessions table contains a row matching the presented bearer token,
requireSession authorizes the request even at an instant strictly past the
row's expires_at, and its result does not depend on the clock at all. -/
theorem requireSession_ignores_expiry (st : DBState) (t : String) (s : SessionRow)
    (now : Int) (hfind : st.sessions.find? (fun row => row.token == t) = some s)
    (hexpired : s.expires_at < now) :
    requireSession st (some t) now =
      .authorized s (st.user_settings.find? (fun u => u.user_uuid == s.user_uuid)) ∧
    ∀ now' : Int, requireSession st (some t) now' = requireSession st (some t) now := by
  constructor
  · simp [requireSession, hfind]
  · intro now'
    rfl

/-- A concrete long-expired session row. -/
def sessW : SessionRow :=
  { token := "tok-1", user_uuid := "u1", nickname := "nick", created_at := 0,
    last_seen_at := 0, expires_at := 5, client_access_token := "cat" }

/-- A store holding only that expired session. -/
def stW9 : DBState := { emptyDB with sessions := [sessW] }

/-- C9 witness: the concrete session expired at 5 is still authorized at
time 100. -/
theorem requireSession_ignores_expiry_witness :
    requireSession stW9 (some "tok-1") 100 =
      .authorized sessW (stW9.user_settings.find? (fun u => u.user_uuid == sessW.user_uuid)) :=
  (requireSession_ignores_expiry stW9 "tok-1" sessW 100 (by decide) (by decide)).1

/-- C8 counterexample: a money-type inventory entry that is no longer in the
available state (here already 'sold') makes the sell operation fail with the
NOT_AVAILABLE error, not CANNOT_SELL_MONEY, so the error code of the claim
is not universal over money entries. -/
def invRowM : InvRow :=
  { id := 1, user_uuid := "u1", item_id := "cash5", title := "5 EUR",
    type := "money", image_url := "", amount_eur := 5, sell_price_eur := 5,
    rarity := "common", status := "sold", created_at := 0, updated_at := 0 }

/-- A store holding only that sold money entry. -/
def stC8 : DBState := { emptyDB with inventory := [invRowM] }

/-- C8 counterexample theorem: selling the sold money entry answers
NOT_AVAILABLE, which is a different error than CANNOT_SELL_MONEY. -/
theorem sellOp_money_counterexample :
    sellOp stC8 "u1" 1 7 = (.notAvailable, stC8) ∧
    SellResp.notAvailable ≠ SellResp.cannotSellMoney := by
  constructor
  · simp [sellOp, stC8, invRowM, emptyDB]
  · decide

/-- C8 (amended): the sell operation on a money-type inventory entry always
fails and leaves the store (hence the entry and every one of its fields)
unchanged; the error is CANNOT_SELL_MONEY exactly when the entry is in the
available state, and NOT_AVAILABLE otherwise. -/
theorem sellOp_money_always_fails (st : DBState) (user : String) (invId : Nat) (now : Int)
    (item : InvRow)
    (hfind : st.inventory.find? (fun r => r.id == invId && r.user_uuid == user) = some item)
    (hmoney : item.type = "money") :
    (sellOp st user invId now).2 = st ∧
    ((sellOp st user invId now).1 = .notAvailable ∨
      (sellOp st user invId now).1 = .cannotSellMoney) ∧
    (item.status = "available" → (sellOp st user invId now).1 = .cannotSellMoney) := by
  unfold sellOp
  rw [hfind]
  by_cases hs : item.status = "available"
  · simp [hs, hmoney]
  · simp [hs, hmoney]

/-- An available concrete money entry. -/
def invRowM2 : InvRow := { invRowM with id := 2, status := "available" }

/-- A store holding only that available money entry. -/
def stW8 : DBState := { emptyDB with inventory := [invRowM2] }

/-- C8 witness: on the available money entry the sell operation leaves the
store unchanged and fails with CANNOT_SELL_MONEY. -/
theorem sellOp_money_always_fails_witness :
    (sellOp stW8 "u1" 2 7).2 = stW8 ∧ (sellOp stW8 "u1" 2 7).1 = .cannotSellMoney := by
  have h := sellOp_money_always_fails stW8 "u1" 2 7 invRowM2 (by decide) (by decide)
  exact ⟨h.1, h.2.2 (by decide)⟩

/-- A concrete available physical-type prize whose owner has no settings row
(hence no trade link on file). -/
def invRowP : InvRow :=
  { id := 1, user_uuid := "u1", item_id := "mouse", title := "Gaming Mouse",
    type := "physical", image_url := "", amount_eur := 30, sell_price_eur := 20,
    rarity := "rare", status := "available", created_at := 0, updated_at := 0 }

/-- A store holding only that physical entry and no user_settings. -/
def stC7 : DBState := { emptyDB with inventory := [invRowP] }

/-- C7 counterexample: claiming the physical entry with no trade link on
file does NOT fail TRADE_LINK_MISSING — the handler only guards
skin-type items — it creates the redemption request and moves the entry
to 'processing'. -/
theorem claimOp_physical_counterexample :
    (claimOp stC7 "u1" 1 9 7).1 = .requestCreated "REQ-7" ∧
    ((claimOp stC7 "u1" 1 9 7).2.inventory.map (fun r => r.status)) = ["processing"] ∧
    (claimOp stC7 "u1" 1 9 7).2.requests.length = 1 ∧
    ClaimResp.requestCreated "REQ-7" ≠ ClaimResp.tradeLinkMissing := by
  refine ⟨?_, ?_, ?_, by decide⟩ <;>
    simp [claimOp, stC7, invRowP, emptyDB, tradeLinkOf, tradeLinkFalsy, updateInvStatus] <;>
    decide

/-- C7 (amended): for a skin-type inventory entry in the available state
whose owner has no trade link on file, the claim operation fails
TRADE_LINK_MISSING and mutates nothing: the store is returned unchanged, so
the entry stays 'available' and no redemption request row is created. -/
theorem claimOp_skin_no_tradelink (st : DBState) (user : String) (invId : Nat)
    (now : Int) (reqNum : Nat) (item : InvRow)
    (hfind : st.inventory.find? (fun r => r.id == invId && r.user_uuid == user) = some item)
    (hstatus : item.status = "available") (hskin : item.type = "skin")
    (htl : tradeLinkFalsy (tradeLinkOf st user) = true) :
    claimOp st user invId now reqNum = (.tradeLinkMissing, st) := by
  unfold claimOp
  rw [hfind]
  simp [hstatus, hskin, htl]

/-- A concrete available skin entry. -/
def invRowS : InvRow := { invRowP with id := 3, type := "skin", title := "AK Redline" }

/-- A store holding only that skin entry, whose owner has a settings row
with a NULL trade link. -/
def stW7 : DBState :=
  { emptyDB with
      inventory := [invRowS],
      user_settings := [{ user_uuid := "u1", trade_link := none, level := 1, xp := 0 }] }

/-- C7 witness: claiming the skin entry with a NULL trade link fails
TRADE_LINK_MISSING and leaves the store untouched. -/
theorem claimOp_skin_no_tradelink_witness :
    claimOp stW7 "u1" 3 9 7 = (.tradeLinkMissing, stW7) :=
  claimOp_skin_no_tradelink stW7 "u1" 3 9 7 invRowS (by decide) (by decide) (by decide)
    (by decide)

lemma findSel_mem {rnd : ℚ} {items : List CaseItemJoined} {i : CaseItemJoined}
    (h : findSel rnd items = some i) : i ∈ items := by
  induction items generalizing rnd with
  | nil => simp [findSel] at h
  | cons a t ih =>
    rw [findSel] at h
    by_cases hc : rnd - a.weight ≤ 0
    · rw [if_pos hc] at h
      have ha := Option.some.inj h
      subst ha
      exact List.mem_cons_self a t
    · rw [if_neg hc] at h
      exact List.mem_cons_of_mem a (ih h)

/-- Two distinct concrete case items of weight 1 each. -/
def jA : CaseItemJoined :=
  { item_id := "a", weight := 1, rarity := "common", stock := -1, title := "A",
    price_eur := 1, sell_price_eur := 1, itemType := "skin", image_url := "" }

/-- The second, distinct item. -/
def jB : CaseItemJoined := { jA with item_id := "b", title := "B" }

/-- C4 counterexample: when the subtracting walk selects nothing (here the
draw value 5 exceeds the total weight 2, the degenerate regime the claim
addresses), the draw falls back to the FIRST item of the iteration order,
not to the last one. -/
theorem selectItem_fallback_counterexample :
    findSel 5 [jA, jB] = none ∧ selectItem [jA, jB] 5 = some jA ∧
    [jA, jB].getLast? = some jB ∧ jA ≠ jB := by
  refine ⟨?_, ?_, by decide, by decide⟩ <;>
    norm_num [findSel, selectItem, jA, jB]

/-- C4 (amended): for a non-empty contents list the draw never fails — it
returns an item of the list (the first one at which the running value
drops to 0 or below) — and when no item satisfies the condition the
fallback is `caseItems[0]`, the FIRST item in iteration order, not the
last. -/
theorem selectItem_total_first_fallback (items : List CaseItemJoined) (rnd : ℚ)
    (hne : items ≠ []) :
    (∃ i, selectItem items rnd = some i ∧ i ∈ items) ∧
    (findSel rnd items = none → selectItem items rnd = items.head?) := by
  constructor
  · cases hf : findSel rnd items with
    | some i => exact ⟨i, by simp [selectItem, hf], findSel_mem hf⟩
    | none =>
      cases items with
      | nil => exact absurd rfl hne
      | cons a t => exact ⟨a, by simp [selectItem, hf], List.mem_cons_self a t⟩
  · intro hf
    simp [selectItem, hf]

/-- C4 witness: the amended fallback behaviour at the concrete two-item
list and draw value 5 — the draw resolves to the head of the list. -/
theorem selectItem_total_first_fallback_witness :
    selectItem [jA, jB] 5 = [jA, jB].head? :=
  (selectItem_total_first_fallback [jA, jB] 5 (by decide)).2
    (by norm_num [findSel, jA, jB])

lemma grantPhase_cases (st : DBState) (c : ClaimRow) (sp : SpinRow) (iv : InvRow)
    (failAt : Option (Fin 3)) (sel : CaseItemJoined) :
    grantPhase st c sp iv failAt sel =
      (.success sel, { st with case_claims := st.case_claims ++ [c],
                               spins := st.spins ++ [sp],
                               inventory := st.inventory ++ [iv] }) ∨
    grantPhase st c sp iv failAt sel = (.internalError, st) := by
  unfold grantPhase
  by_cases h0 : failAt == some 0
  · right
    simp [h0, dbBegin, dbExec, dbRollback]
  · by_cases h1 : failAt == some 1
    · right
      simp [h0, h1, dbBegin, dbExec, dbRollback]
    · by_cases h2 : failAt == some 2
      · right
        simp [h0, h1, h2, dbBegin, dbExec, dbRollback]
      · left
        simp [h0, h1, h2, dbBegin, dbExec, dbCommit, insClaim, insSpin, insInv]

/-- C3: the grant phase of openCase is atomic — every open-case call either
commits exactly the three grant rows (claim, spin history, inventory entry)
together in one transaction and answers the prize, or leaves the committed
store exactly unchanged and answers an error; a state holding only part of
the grant (for example a spin row without an inventory row) is never
visible. -/
theorem openCase_atomic (st : DBState) (env : OpenEnv) :
    (∃ sel c s i, openCase st env = (.success sel,
        { st with case_claims := st.case_claims ++ [c], spins := st.spins ++ [s],
                  inventory := st.inventory ++ [i] })) ∨
    ((openCase st env).2 = st ∧ ∀ sel, (openCase st env).1 ≠ .success sel) := by
  unfold openCase
  cases hfind : st.cases.find? (fun c => c.id == env.caseId) with
  | none => right; simp
  | some meta =>
    by_cases hcl : hasClaim st env.user_uuid env.caseId (periodKeyFor meta env.parts)
    · right
      simp [hcl]
    · by_cases hpr : (if caseIsDaily meta then (calculateProgressSafe env.upstream env.parts).daily
          else (calculateProgressSafe env.upstream env.parts).monthly) < meta.threshold_eur
      · right
        simp [hcl, hpr]
      · cases hsel : selectItem (joinCaseItems st env.caseId)
            (env.r * sumWeights (joinCaseItems st env.caseId)) with
        | none =>
          right
          simp [hcl, hpr, hsel, dbBegin, dbExec, dbRollback]
        | some sel =>
          rcases grantPhase_cases st (mkClaimRow env (periodKeyFor meta env.parts))
              (mkSpinRow env sel) (mkInvRow st env sel) env.failAt sel with hg | hg
          · left
            exact ⟨sel, mkClaimRow env (periodKeyFor meta env.parts), mkSpinRow env sel,
              mkInvRow st env sel, by simp [hcl, hpr, hsel, hg]⟩
          · right
            simp [hcl, hpr, hsel, hg]

lemma grantPhase_success_spec {st : DBState} {c : ClaimRow} {sp : SpinRow} {iv : InvRow}
    {failAt : Option (Fin 3)} {sel pr : CaseItemJoined} {st1 : DBState}
    (h : grantPhase st c sp iv failAt sel = (.success pr, st1)) :
    st1 = { st with case_claims := st.case_claims ++ [c], spins := st.spins ++ [sp],
                    inventory := st.inventory ++ [iv] } := by
  rcases grantPhase_cases st c sp iv failAt sel with hg | hg <;> rw [hg] at h
  · simp only [Prod.mk.injEq] at h
    exact h.2.symm
  · simp at h

lemma openCase_success_spec {st : DBState} {env : OpenEnv} {pr : CaseItemJoined} {st1 : DBState}
    (h : openCase st env = (.success pr, st1)) :
    ∃ meta, st.cases.find? (fun c => c.id == env.caseId) = some meta ∧
      st1.cases = st.cases ∧
      st1.case_claims = st.case_claims ++ [mkClaimRow env (periodKeyFor meta env.parts)] := by
  revert h
  unfold openCase
  cases hfind : st.cases.find? (fun c => c.id == env.caseId) with
  | none =>
    intro h
    simp at h
  | some meta =>
    by_cases hcl : hasClaim st env.user_uuid env.caseId (periodKeyFor meta env.parts)
    · intro h
      simp [hcl] at h
    · by_cases hpr2 : (if caseIsDaily meta then (calculateProgressSafe env.upstream env.parts).daily
          else (calculateProgressSafe env.upstream env.parts).monthly) < meta.threshold_eur
      · intro h
        simp [hcl, hpr2] at h
      · cases hsel : selectItem (joinCaseItems st env.caseId)
            (env.r * sumWeights (joinCaseItems st env.caseId)) with
        | none =>
          intro h
          simp [hcl, hpr2, hsel, dbBegin, dbExec, dbRollback] at h
        | some sel =>
          intro h
          simp only [hcl, hpr2, hsel, Bool.false_eq_true, if_false] at h
          have hst1 := grantPhase_success_spec h
          refine ⟨meta, rfl, ?_, ?_⟩ <;> rw [hst1]

lemma openCase_run {st : DBState} {env : OpenEnv} {meta : CaseRow} {sel : CaseItemJoined}
    (hfind : st.cases.find? (fun c => c.id == env.caseId) = some meta)
    (hnoclaim : hasClaim st env.user_uuid env.caseId (periodKeyFor meta env.parts) = false)
    (hprog : ¬ ((if caseIsDaily meta then (calculateProgressSafe env.upstream env.parts).daily
        else (calculateProgressSafe env.upstream env.parts).monthly) < meta.threshold_eur))
    (hsel : selectItem (joinCaseItems st env.caseId)
        (env.r * sumWeights (joinCaseItems st env.caseId)) = some sel) :
    openCase st env = grantPhase st (mkClaimRow env (periodKeyFor meta env.parts))
      (mkSpinRow env sel) (mkInvRow st env sel) env.failAt sel := by
  unfold openCase
  rw [hfind]
  simp [hnoclaim, hprog, hsel]

/-- C2: idempotence of openCase after a success — once an open has
succeeded for (user, case, period_key), every later open by the same user
for the same case whose period key is unchanged fails ALREADY_OPENED and
writes no rows at all: the store comes back exactly as it was, so no
second prize is ever granted. -/
theorem openCase_already_opened (st st1 : DBState) (env env' : OpenEnv)
    (pr : CaseItemJoined) (meta : CaseRow)
    (hmeta : st.cases.find? (fun c => c.id == env.caseId) = some meta)
    (hopen : openCase st env = (.success pr, st1))
    (huser : env'.user_uuid = env.user_uuid) (hcase : env'.caseId = env.caseId)
    (hperiod : periodKeyFor meta env'.parts = periodKeyFor meta env.parts) :
    openCase st1 env' = (.alreadyOpened, st1) := by
  obtain ⟨meta2, hm2, hcases, hclaims⟩ := openCase_success_spec hopen
  rw [hmeta] at hm2
  have hmeq : meta = meta2 := Option.some.inj hm2
  subst hmeq
  unfold openCase
  have hfind' : st1.cases.find? (fun c => c.id == env'.caseId) = some meta := by
    rw [hcase, hcases, hmeta]
  rw [hfind']
  have hcl : hasClaim st1 env'.user_uuid env'.caseId (periodKeyFor meta env'.parts) = true := by
    unfold hasClaim
    rw [hclaims, List.any_append]
    simp [mkClaimRow, huser, hcase, hperiod]
  simp [hcl]

lemma round2_zero : round2 0 = 0 := by norm_num [round2, jsRound]

lemma grantPhase_none (st : DBState) (c : ClaimRow) (sp : SpinRow) (iv : InvRow)
    (sel : CaseItemJoined) :
    grantPhase st c sp iv none sel =
      (.success sel, { st with case_claims := st.case_claims ++ [c],
                               spins := st.spins ++ [sp],
                               inventory := st.inventory ++ [iv] }) := by
  simp [grantPhase, dbBegin, dbExec, dbCommit, insClaim, insSpin, insInv]

lemma grantPhase_some0 (st : DBState) (c : ClaimRow) (sp : SpinRow) (iv : InvRow)
    (sel : CaseItemJoined) :
    grantPhase st c sp iv (some 0) sel = (.internalError, st) := by
  simp [grantPhase, dbBegin, dbExec, dbRollback]

/-- A concrete daily case with zero threshold. -/
def caseW : CaseRow :=
  { id := "daily_0", title := "Daily Free", type := "daily", threshold_eur := 0,
    image_url := "", is_active := true }

/-- A concrete skin item. -/
def itemW : ItemRow :=
  { id := "i1", type := "skin", title := "AK", image_url := "img", price_eur := 10,
    sell_price_eur := 8, rarity := "rare", stock := -1, is_active := true }

/-- The weight-1 link putting the item into the case. -/
def linkW : CaseItemRow :=
  { id := 1, case_id := "daily_0", item_id := "i1", weight := 1, rarity := "rare" }

/-- The store holding the case, its item and the link, with no claims yet. -/
def stW2 : DBState := { emptyDB with cases := [caseW], items := [itemW], case_items := [linkW] }

/-- A concrete Riga clock reading. -/
def partsW : RigaParts := ⟨"2026", "10", "12"⟩

/-- A concrete open-case environment: empty upstream payment list (progress
0, enough for the 0 threshold), random draw 0, no insert failure. -/
def envW : OpenEnv :=
  { user_uuid := "u1", caseId := "daily_0", parts := partsW, upstream := .ok [],
    r := 0, now := 1000, failAt := none }

/-- The joined contents row the draw selects in that store. -/
def selW : CaseItemJoined :=
  { item_id := "i1", weight := 1, rarity := "rare", stock := -1, title := "AK",
    price_eur := 10, sell_price_eur := 8, itemType := "skin", image_url := "img" }

lemma stW2_find : stW2.cases.find? (fun c => c.id == envW.caseId) = some caseW := by decide

lemma stW2_noclaim :
    hasClaim stW2 envW.user_uuid envW.caseId (periodKeyFor caseW envW.parts) = false := by decide

lemma stW2_prog :
    ¬ ((if caseIsDaily caseW then (calculateProgressSafe envW.upstream envW.parts).daily
        else (calculateProgressSafe envW.upstream envW.parts).monthly) < caseW.threshold_eur) := by
  have h : calculateProgressSafe envW.upstream envW.parts = ⟨0, 0⟩ := by
    simp [envW, calculateProgressSafe, round2_zero]
  rw [h]
  simp [caseW]

lemma stW2_join : joinCaseItems stW2 envW.caseId = [selW] := by decide

lemma stW2_sel : selectItem (joinCaseItems stW2 envW.caseId)
    (envW.r * sumWeights (joinCaseItems stW2 envW.caseId)) = some selW := by
  rw [stW2_join]
  norm_num [envW, selectItem, findSel, sumWeights, selW]

/-- The store after the successful concrete open: exactly one claim row,
one spin row and one inventory row. -/
def stW2After : DBState :=
  { stW2 with
      case_claims := [mkClaimRow envW (periodKeyFor caseW envW.parts)],
      spins := [mkSpinRow envW selW],
      inventory := [mkInvRow stW2 envW selW] }

lemma stW2_open : openCase stW2 envW = (.success selW, stW2After) := by
  rw [openCase_run stW2_find stW2_noclaim stW2_prog stW2_sel]
  have hf : envW.failAt = none := rfl
  rw [hf, grantPhase_none]
  simp [stW2After, stW2, emptyDB]

/-- C2 witness: after the concrete successful open, repeating the very same
open request fails ALREADY_OPENED and leaves the store untouched. -/
theorem openCase_already_opened_witness :
    openCase stW2After envW = (.alreadyOpened, stW2After) :=
  openCase_already_opened stW2 stW2After envW envW selW caseW stW2_find stW2_open rfl rfl rfl

/-- The same concrete environment with the claim insert failing. -/
def envW0 : OpenEnv := { envW with failAt := some 0 }

lemma stW2_find0 : stW2.cases.find? (fun c => c.id == envW0.caseId) = some caseW := by decide

lemma stW2_noclaim0 :
    hasClaim stW2 envW0.user_uuid envW0.caseId (periodKeyFor caseW envW0.parts) = false := by
  decide

lemma stW2_prog0 :
    ¬ ((if caseIsDaily caseW then (calculateProgressSafe envW0.upstream envW0.parts).daily
        else (calculateProgressSafe envW0.upstream envW0.parts).monthly) < caseW.threshold_eur) := by
  have h : calculateProgressSafe envW0.upstream envW0.parts = ⟨0, 0⟩ := by
    simp [envW0, envW, calculateProgressSafe, round2_zero]
  rw [h]
  simp [caseW]

lemma stW2_sel0 : selectItem (joinCaseItems stW2 envW0.caseId)
    (envW0.r * sumWeights (joinCaseItems stW2 envW0.caseId)) = some selW := by
  have hj : joinCaseItems stW2 envW0.caseId = [selW] := by decide
  rw [hj]
  norm_num [envW0, envW, selectItem, findSel, sumWeights, selW]

/-- C1 counterexample: the case_claims storage layer accepts a duplicate
(user_uuid, case_id, period_key) triple — the embedded insert of the DDL
(which declares no uniqueness constraint) appends unconditionally, so
re-running the claim insert of an already-granted claim yields two rows
with the same triple; and when the claim insert inside the open-case
transaction fails, the handler answers the generic 500 internal error,
which is a different response than ALREADY_OPENED. -/
theorem caseClaims_unconstrained_counterexample :
    ((insClaim (mkClaimRow envW (periodKeyFor caseW envW.parts)) stW2After).case_claims.filter
        (fun r => r.user_uuid == "u1" && r.case_id == "daily_0" &&
          r.period_key == "2026-10-12")).length = 2 ∧
    openCase stW2 envW0 = (.internalError, stW2) ∧
    OpenResp.internalError ≠ OpenResp.alreadyOpened ∧
    OpenResp.internalError.status = 500 := by
  refine ⟨by decide, ?_, by decide, by decide⟩
  rw [openCase_run stW2_find0 stW2_noclaim0 stW2_prog0 stW2_sel0]
  have hf : envW0.failAt = some 0 := rfl
  rw [hf, grantPhase_some0]

/-- C1 (amended): the storage layer enforces no uniqueness on case_claims —
an insert of a claim row always succeeds by appending, even when a row
with the same (user_uuid, case_id, period_key) is already present — and
when the claim insert inside the open-case transaction fails, openCase
surfaces the generic 500 internal error, not the domain error
ALREADY_OPENED; the anti-replay guarantee rests solely on the advisory
pre-check. -/
theorem openCase_claim_insert_failure_generic (st : DBState) (env : OpenEnv)
    (meta : CaseRow) (sel : CaseItemJoined)
    (hfind : st.cases.find? (fun c => c.id == env.caseId) = some meta)
    (hnoclaim : hasClaim st env.user_uuid env.caseId (periodKeyFor meta env.parts) = false)
    (hprog : ¬ ((if caseIsDaily meta then (calculateProgressSafe env.upstream env.parts).daily
        else (calculateProgressSafe env.upstream env.parts).monthly) < meta.threshold_eur))
    (hsel : selectItem (joinCaseItems st env.caseId)
        (env.r * sumWeights (joinCaseItems st env.caseId)) = some sel)
    (hfail : env.failAt = some 0) :
    (∀ (r : ClaimRow) (tbl : DBState), (insClaim r tbl).case_claims = tbl.case_claims ++ [r]) ∧
    openCase st env = (.internalError, st) ∧
    OpenResp.internalError ≠ OpenResp.alreadyOpened := by
  refine ⟨fun r tbl => rfl, ?_, by decide⟩
  rw [openCase_run hfind hnoclaim hprog hsel, hfail, grantPhase_some0]

/-- C1 witness: the amended behaviour at the concrete store — the claim
insert fails, the whole call answers the generic 500 and changes nothing,
while the storage-level insert of a duplicate claim row plainly appends. -/
theorem openCase_claim_insert_failure_generic_witness :
    openCase stW2 envW0 = (.internalError, stW2) ∧
    (insClaim (mkClaimRow envW (periodKeyFor caseW envW.parts)) stW2After).case_claims =
      stW2After.case_claims ++ [mkClaimRow envW (periodKeyFor caseW envW.parts)] := by
  have h := openCase_claim_insert_failure_generic stW2 envW0 caseW selW stW2_find0
    stW2_noclaim0 stW2_prog0 stW2_sel0 rfl
  exact ⟨h.2.1, h.1 (mkClaimRow envW (periodKeyFor caseW envW.parts)) stW2After⟩

lemma foldl_weights_zero (l : List CaseItemJoined) (acc : ℚ)
    (h : ∀ i ∈ l, i.weight = 0) :
    l.foldl (fun a i => a + i.weight) acc = acc := by
  induction l generalizing acc with
  | nil => rfl
  | cons a t ih =>
    have ha : a.weight = 0 := h a (List.mem_cons_self a t)
    rw [List.foldl_cons, ha, add_zero]
    exact ih acc (fun i hi => h i (List.mem_cons_of_mem a hi))

lemma sumWeights_all_zero (l : List CaseItemJoined) (h : ∀ i ∈ l, i.weight = 0) :
    sumWeights l = 0 :=
  foldl_weights_zero l 0 h

/-- C5 (amended): openCase performs no zero-total-weight check — for a case
whose non-empty joined contents all carry weight 0 (total weight 0), when
the other checks pass and no insert fails, the open SUCCEEDS and grants
the FIRST content item: the draw value is r·0 = 0 and the first
subtraction already reaches 0.  No division happens on this path, so
there is indeed no division by zero — but the open is not rejected. -/
theorem openCase_zero_weight_succeeds (st : DBState) (env : OpenEnv) (meta : CaseRow)
    (hd : CaseItemJoined) (tl : List CaseItemJoined)
    (hfind : st.cases.find? (fun c => c.id == env.caseId) = some meta)
    (hnoclaim : hasClaim st env.user_uuid env.caseId (periodKeyFor meta env.parts) = false)
    (hprog : ¬ ((if caseIsDaily meta then (calculateProgressSafe env.upstream env.parts).daily
        else (calculateProgressSafe env.upstream env.parts).monthly) < meta.threshold_eur))
    (hitems : joinCaseItems st env.caseId = hd :: tl)
    (hzero : ∀ i ∈ joinCaseItems st env.caseId, i.weight = 0)
    (hnofail : env.failAt = none) :
    openCase st env = (.success hd,
      { st with
          case_claims := st.case_claims ++ [mkClaimRow env (periodKeyFor meta env.parts)],
          spins := st.spins ++ [mkSpinRow env hd],
          inventory := st.inventory ++ [mkInvRow st env hd] }) := by
  have hw : hd.weight = 0 := hzero hd (by rw [hitems]; exact List.mem_cons_self hd tl)
  have hsum : sumWeights (joinCaseItems st env.caseId) = 0 :=
    sumWeights_all_zero _ hzero
  have hsel : selectItem (joinCaseItems st env.caseId)
      (env.r * sumWeights (joinCaseItems st env.caseId)) = some hd := by
    rw [hsum, mul_zero, hitems]
    simp [selectItem, findSel, hw]
  rw [openCase_run hfind hnoclaim hprog hsel, hnofail, grantPhase_none]

/-- The zero-weight daily case. -/
def caseZ : CaseRow := { caseW with id := "zero_w" }

/-- The weight-0 link putting the item into the zero-weight case. -/
def linkZ : CaseItemRow :=
  { id := 2, case_id := "zero_w", item_id := "i1", weight := 0, rarity := "common" }

/-- The store holding the zero-total-weight case. -/
def stC5 : DBState := { emptyDB with cases := [caseZ], items := [itemW], case_items := [linkZ] }

/-- The joined contents row of the zero-weight case. -/
def selZ : CaseItemJoined := { selW with weight := 0, rarity := "common" }

/-- The open environment against the zero-weight case, with a nonzero
random draw. -/
def envZ : OpenEnv := { envW with caseId := "zero_w", r := 1/2 }

lemma stC5_find : stC5.cases.find? (fun c => c.id == envZ.caseId) = some caseZ := by decide

lemma stC5_noclaim :
    hasClaim stC5 envZ.user_uuid envZ.caseId (periodKeyFor caseZ envZ.parts) = false := by decide

lemma stC5_prog :
    ¬ ((if caseIsDaily caseZ then (calculateProgressSafe envZ.upstream envZ.parts).daily
        else (calculateProgressSafe envZ.upstream envZ.parts).monthly) < caseZ.threshold_eur) := by
  have h : calculateProgressSafe envZ.upstream envZ.parts = ⟨0, 0⟩ := by
    simp [envZ, envW, calculateProgressSafe, round2_zero]
  rw [h]
  simp [caseZ, caseW]

lemma stC5_join : joinCaseItems stC5 envZ.caseId = [selZ] := by decide

lemma stC5_zero : ∀ i ∈ joinCaseItems stC5 envZ.caseId, i.weight = 0 := by decide

lemma stC5_open : openCase stC5 envZ = (.success selZ,
    { stC5 with
        case_claims := stC5.case_claims ++ [mkClaimRow envZ (periodKeyFor caseZ envZ.parts)],
        spins := stC5.spins ++ [mkSpinRow envZ selZ],
        inventory := stC5.inventory ++ [mkInvRow stC5 envZ selZ] }) := by
  have hsel : selectItem (joinCaseItems stC5 envZ.caseId)
      (envZ.r * sumWeights (joinCaseItems stC5 envZ.caseId)) = some selZ := by
    rw [stC5_join]
    norm_num [envZ, envW, selectItem, findSel, sumWeights, selZ, selW]
  have hf : envZ.failAt = none := rfl
  rw [openCase_run stC5_find stC5_noclaim stC5_prog hsel, hf, grantPhase_none]

/-- C5 counterexample: the concrete case whose single content link has
weight 0 (zero total weight) is NOT rejected as misconfigured — the open
succeeds, grants the item and writes the claim/spin/inventory rows. -/
theorem openCase_zero_weight_counterexample :
    (openCase stC5 envZ).1 = .success selZ ∧
    (openCase stC5 envZ).2.case_claims.length = 1 ∧
    (openCase stC5 envZ).2.spins.length = 1 ∧
    (openCase stC5 envZ).2.inventory.length = 1 := by
  rw [stC5_open]
  refine ⟨rfl, ?_, ?_, ?_⟩ <;> simp [stC5, emptyDB]

/-- C5 witness: the amended behaviour at the concrete zero-weight store —
the open succeeds and grants the first (only) content item. -/
theorem openCase_zero_weight_succeeds_witness :
    openCase stC5 envZ = (.success selZ,
      { stC5 with
          case_claims := stC5.case_claims ++ [mkClaimRow envZ (periodKeyFor caseZ envZ.parts)],
          spins := stC5.spins ++ [mkSpinRow envZ selZ],
          inventory := stC5.inventory ++ [mkInvRow stC5 envZ selZ] }) :=
  openCase_zero_weight_succeeds stC5 envZ caseZ selZ [] stC5_find stC5_noclaim stC5_prog
    stC5_join stC5_zero rfl

end CyberHub
